import Mathlib

/-!
Verification of the inference-node result-delivery and pipeline core.

The definitions below are a shallow embedding of the Python source:

* `Destination` embeds the mutable state of
  `ResultPublisher/base_destination.py` (`BaseResultDestination`); its
  operations (`recordFailure`, `recordSuccess`, `resetFailureCount`,
  `resetFrameCount`, `publish`) are translated line by line from that file.
  Wall-clock reads (`time.time()`) are passed in as an explicit rational
  `now`; the transport-specific `_publish` call is abstracted by a
  `SendOutcome` (it returned `True`, returned `False`, or raised).
* list-level publisher toggles embed `InferencePipeline.disable_publisher`
  and `InferencePipeline.enable_publisher` from `InferenceNode/pipeline.py`.
* `publisherPublish` embeds `ResultPublisher.publish` from
  `ResultPublisher/publisher.py`; a frame is abstracted as a natural
  number and a successful `cv2.imencode` is assumed (the encoded form is
  tracked as presence plus a call counter).
* `calculateRollingFps` embeds `InferencePipeline._calculate_rolling_fps`;
  Python `round(x, 1)` is modelled half-up on rationals (ties at .05 are
  not exercised by any statement below).
* `PipelineState` embeds the lifecycle flags of `InferencePipeline`;
  `start` embeds `InferencePipeline.start` with the raised `RuntimeError`
  returned as a message, and `runWithFault` embeds the path through
  `InferencePipeline.run` taken when the loop body raises.
* `DestEntry`/`processDestinations` embed the destination-list branch of
  `PipelineManager.update_pipeline` from `InferenceNode/pipeline_manager.py`;
  `uuid.uuid4()` results are supplied by a stream `fresh` indexed by the
  number of calls made so far, and `_ensure_destination_uuid` is supplied
  as an abstract function.
-/

/-- Mutable state of `BaseResultDestination` (`base_destination.py`).
Fields keep the Python attribute names; `id` stands for `_id` and
`pause_warning_logged` for `_pause_warning_logged`. -/
structure Destination where
  rate_limit : Option ℚ
  last_publish_time : ℚ
  is_configured : Bool
  id : String
  enabled : Bool
  include_image_data : Bool
  include_result_image : Bool
  max_frames : Option ℕ
  frame_count : ℕ
  frame_limit_reached : Bool
  pause_warning_logged : Bool
  failure_count : ℕ
  max_failures : ℕ
  failure_threshold_reached : Bool
  last_failure_time : ℚ
  success_count_since_failure : ℕ
  deriving DecidableEq, Repr

/-- The state `BaseResultDestination.__init__` establishes. -/
def Destination.init : Destination where
  rate_limit := none
  last_publish_time := 0
  is_configured := false
  id := ""
  enabled := true
  include_image_data := false
  include_result_image := false
  max_frames := none
  frame_count := 0
  frame_limit_reached := false
  pause_warning_logged := false
  failure_count := 0
  max_failures := 5
  failure_threshold_reached := false
  last_failure_time := 0
  success_count_since_failure := 0

/-- `BaseResultDestination._record_failure` (the defensive `isinstance`
coercions are identities here because the counters are naturals). -/
def Destination.recordFailure (d : Destination) (now : ℚ) : Destination :=
  let d1 := { d with failure_count := d.failure_count + 1
                   , success_count_since_failure := 0
                   , last_failure_time := now }
  if d1.max_failures ≤ d1.failure_count ∧ d1.failure_threshold_reached = false then
    { d1 with failure_threshold_reached := true, enabled := false }
  else
    d1

/-- `BaseResultDestination._record_success`. -/
def Destination.recordSuccess (d : Destination) : Destination :=
  let d1 := { d with success_count_since_failure := d.success_count_since_failure + 1 }
  if 3 ≤ d1.success_count_since_failure ∧ 0 < d1.failure_count then
    { d1 with failure_count := 0, success_count_since_failure := 0 }
  else
    d1

/-- `BaseResultDestination.reset_failure_count`. -/
def Destination.resetFailureCount (d : Destination) : Destination :=
  let d1 := { d with failure_count := 0
                   , success_count_since_failure := 0
                   , failure_threshold_reached := false }
  if d1.enabled = false ∧ d1.is_configured = true then
    { d1 with enabled := true }
  else
    d1

/-- `BaseResultDestination.reset_frame_count`. -/
def Destination.resetFrameCount (d : Destination) : Destination :=
  { d with frame_count := 0, frame_limit_reached := false, pause_warning_logged := false }

/-- Outcome of the transport-specific `_publish` call: it returned `True`,
returned `False`, or raised an exception. -/
inductive SendOutcome where
  | ok : SendOutcome
  | returnedFalse : SendOutcome
  | raised : SendOutcome
  deriving DecidableEq, Repr

/-- Lines 333-362 of `base_destination.py`: the part of `publish` after the
gate has accepted and `last_publish_time` has been advanced. -/
def Destination.sendStage (d : Destination) (now : ℚ) (o : SendOutcome) :
    Bool × Destination :=
  match o with
  | .ok =>
      let d1 := d.recordSuccess
      let d2 := { d1 with frame_count := d1.frame_count + 1 }
      let d3 :=
        match d2.max_frames with
        | some m =>
            if m ≤ d2.frame_count then
              { d2 with frame_limit_reached := true, pause_warning_logged := true }
            else
              d2
        | none => d2
      (true, d3)
  | .returnedFalse =>
      let d1 := { d with last_publish_time := 0 }
      (false, d1.recordFailure now)
  | .raised =>
      let d1 := { d with last_publish_time := 0 }
      (false, d1.recordFailure now)

/-- `BaseResultDestination.publish`: enabled gate, configured gate,
frame-limit gate, rate-limit gate, then the timestamp advance and the
transport stage. -/
def Destination.publish (d : Destination) (now : ℚ) (o : SendOutcome) :
    Bool × Destination :=
  if d.enabled = false then
    (false, d)
  else if d.is_configured = false then
    (false, d.recordFailure now)
  else if d.frame_limit_reached = true then
    (false, d)
  else
    match d.rate_limit with
    | some r =>
        if now - d.last_publish_time < r then
          (false, d)
        else
          Destination.sendStage { d with last_publish_time := now } now o
    | none => Destination.sendStage { d with last_publish_time := now } now o

/-- Iterate `publish` with a fixed clock reading and transport outcome. -/
def Destination.publishIter (d : Destination) (now : ℚ) (o : SendOutcome) :
    ℕ → Destination
  | 0 => d
  | n + 1 => ((d.publishIter now o n).publish now o).2

/-- The breaker invariant of the data-model section of the spec. -/
def breakerInv (d : Destination) : Prop :=
  d.failure_threshold_reached = true → d.enabled = false

instance (d : Destination) : Decidable (breakerInv d) := by
  unfold breakerInv
  infer_instance

/-- `InferencePipeline.disable_publisher` with `id='all'`. -/
def disablePublisherAll (ds : List Destination) : List Destination :=
  ds.map fun d => { d with enabled := false }

/-- `InferencePipeline.disable_publisher` with a specific id:
`ResultPublisher.get_by_id` returns the first match, which is disabled. -/
def disablePublisherById : List Destination → String → List Destination
  | [], _ => []
  | d :: rest, i =>
      if d.id = i then
        { d with enabled := false } :: rest
      else
        d :: disablePublisherById rest i

/-- `InferencePipeline.enable_publisher` with `id='all'`: each destination
is enabled and, if paused by the frame limit, its frame count is reset. -/
def enablePublisherAll (ds : List Destination) : List Destination :=
  ds.map fun d =>
    let d1 := { d with enabled := true }
    if d1.frame_limit_reached then d1.resetFrameCount else d1

/-- `InferencePipeline.enable_publisher` with a specific id: the first
match has its frame count reset when paused, then is enabled. -/
def enablePublisherById : List Destination → String → List Destination
  | [], _ => []
  | d :: rest, i =>
      if d.id = i then
        (let d1 := if d.frame_limit_reached then d.resetFrameCount else d
         { d1 with enabled := true }) :: rest
      else
        d :: enablePublisherById rest i

/-- `ResultPublisher.do_any_destinations_need_image`. -/
def anyNeedImage (ds : List Destination) : Bool :=
  ds.any fun d => d.enabled && d.include_image_data

/-- `ResultPublisher.do_any_destinations_need_result_image`. -/
def anyNeedResultImage (ds : List Destination) : Bool :=
  ds.any fun d => d.enabled && d.include_result_image

/-- Line 638 of `pipeline.py`: the structured payload built in the run
loop when inference produced results. -/
def buildToPublish (pipelineId jsonResults : String) : List (String × String) :=
  [("node_id", pipelineId), ("results", jsonResults)]

/-- Lines 636-643 of `pipeline.py`: the three arguments the run loop hands
to `ResultPublisher.publish`; frames are abstracted as naturals. -/
def runPublishArgs (pipelineId jsonResults : String) (frame latestFrame : ℕ)
    (ds : List Destination) : List (String × String) × Option ℕ × Option ℕ :=
  (buildToPublish pipelineId jsonResults,
   if anyNeedImage ds then some frame else none,
   if anyNeedResultImage ds then some latestFrame else none)

/-- Image attachments of the payload dict `dest_data` a fan-out task is
submitted with, tracking whether the keys `image` and `result_image` have
been set on it. -/
structure DestPayload where
  hasImage : Bool
  hasResultImage : Bool
  deriving DecidableEq, Repr

/-- Lines 112-132 of `publisher.py`: the fan-out loop over the snapshot of
enabled destinations. The single dict `dest_data` is threaded through as
the accumulator, exactly as the source mutates one shared dict. -/
def publishFanoutLoop (encodedImage encodedResultImage : Bool) :
    List Destination → DestPayload → List (Destination × DestPayload)
  | [], _ => []
  | d :: rest, acc =>
      let acc1 := if encodedImage && d.include_image_data then
                    { acc with hasImage := true }
                  else acc
      let acc2 := if encodedResultImage && d.include_result_image then
                    { acc1 with hasResultImage := true }
                  else acc1
      (d, acc2) :: publishFanoutLoop encodedImage encodedResultImage rest acc2

/-- `ResultPublisher.publish`: encode each supplied frame once (the second
component counts `cv2.imencode` calls, both of which happen before the
loop), snapshot the enabled-and-not-paused destinations, and submit one
task per snapshot entry. `is_paused` is the `frame_limit_reached` flag. -/
def publisherPublish (ds : List Destination) (originalImage resultImage : Option ℕ) :
    List (Destination × DestPayload) × ℕ :=
  let encodeCalls := (if originalImage.isSome then 1 else 0)
                   + (if resultImage.isSome then 1 else 0)
  let enabledDestinations := ds.filter fun d => d.enabled && !d.frame_limit_reached
  (publishFanoutLoop originalImage.isSome resultImage.isSome enabledDestinations
     ⟨false, false⟩,
   encodeCalls)

/-- `self._fps_window_seconds` set in `InferencePipeline.__init__`. -/
def fpsWindowSeconds : ℚ := 10

/-- Python `round(x, 1)` on the model rationals (half-up at the ties,
which no statement below exercises). -/
def round1 (x : ℚ) : ℚ := ((round (10 * x) : ℤ) : ℚ) / 10

/-- `InferencePipeline._calculate_rolling_fps`: prune the stored
timestamps to the window, then report 0 for fewer than two samples, else
the rounded interval rate. Returns the fps together with the pruned list
the method stores back into `self._frame_timestamps`. -/
def calculateRollingFps (timestamps : List ℚ) (currentTime : ℚ) :
    ℚ × List ℚ :=
  let cutoff := currentTime - fpsWindowSeconds
  let kept := timestamps.filter fun ts => cutoff ≤ ts
  if kept.length < 2 then
    (0, kept)
  else
    let timeSpan := kept.getLastD 0 - kept.headD 0
    if 0 < timeSpan then
      (round1 (((kept.length : ℚ) - 1) / timeSpan), kept)
    else
      (0, kept)

/-- Lifecycle state of `InferencePipeline` (`pipeline.py`), restricted to
the fields the state machine reads and writes. -/
structure PipelineState where
  is_initialized : Bool
  is_running : Bool
  error_state : Option String
  inference_enabled : Bool
  stop_requested : Bool
  frame_counter : ℕ
  inference_counter : ℕ
  frame_timestamps : List ℚ
  inference_latencies : List ℚ
  start_time : ℚ
  deriving DecidableEq, Repr

/-- The state `InferencePipeline.__init__` establishes. -/
def PipelineState.mkInit : PipelineState where
  is_initialized := false
  is_running := false
  error_state := none
  inference_enabled := true
  stop_requested := false
  frame_counter := 0
  inference_counter := 0
  frame_timestamps := []
  inference_latencies := []
  start_time := 0

/-- `InferencePipeline.start`: raising the `RuntimeError` is modelled as
returning its message in the first component with the state untouched;
the already-running branch is a no-op; otherwise counters and windows are
reset and the worker thread is spawned to execute `run`. -/
def PipelineState.start (p : PipelineState) (now : ℚ) :
    Option String × PipelineState :=
  if p.is_initialized = false then
    (some "cannot start - not initialized. Call configure() first.", p)
  else if p.is_running = true then
    (none, p)
  else
    (none, { p with start_time := now
                  , stop_requested := false
                  , frame_timestamps := []
                  , frame_counter := 0
                  , inference_counter := 0
                  , inference_latencies := [] })

/-- The path through `InferencePipeline.run` taken when the loop body
raises: entry marks the pipeline running and clears the previous error,
the handler records `str(e)` and disables inference, and the `finally`
block clears the running flag. -/
def PipelineState.runWithFault (p : PipelineState) (msg : String) : PipelineState :=
  let p1 := { p with is_running := true, error_state := none }
  let p2 := { p1 with error_state := some msg, inference_enabled := false }
  { p2 with is_running := false }

/-- One destination entry of a durable pipeline registry record, a Python
dict whose keys `id`, `type`, `config`, `enabled` may each be absent
(`none`). The opaque `config` sub-dict is abstracted as a string compared
by equality. -/
structure DestEntry where
  id : Option String
  dtype : Option String
  config : Option String
  enabled : Option Bool
  deriving DecidableEq, Repr

/-- The truthiness test `'id' in new_dest and new_dest['id']`. -/
def DestEntry.truthyId (e : DestEntry) : Bool :=
  match e.id with
  | some s => s ≠ ""
  | none => false

/-- Lines 332-346 of `pipeline_manager.py`: find the existing destination
the entry updates, first by id (when the entry carries a truthy one),
else by type plus config; `None == None` comparisons succeed exactly as
in Python. -/
def findMatch (existing : List DestEntry) (e : DestEntry) : Option DestEntry :=
  let byId := if e.truthyId then existing.find? (fun ex => ex.id == e.id) else none
  match byId with
  | some ex => some ex
  | none => existing.find? (fun ex => ex.dtype == e.dtype && ex.config == e.config)

/-- Lines 326-364 of `pipeline_manager.py`: the destination-list branch of
`PipelineManager.update_pipeline`. `fresh k` is the string the k-th
`uuid.uuid4()` call returns (Python evaluates the eager
`existing_dest.get('id', str(uuid.uuid4()))` default even when the key is
present, so matched entries consume an index too); `ensureUuid` is
`_ensure_destination_uuid`. -/
def processDestinations (fresh : ℕ → String) (ensureUuid : String → String)
    (existing : List DestEntry) : List DestEntry → ℕ → List DestEntry
  | [], _ => []
  | e :: rest, k =>
      match findMatch existing e with
      | some ex =>
          let newId := match ex.id with
            | some s => s
            | none => fresh k
          let en := match e.enabled with
            | some b => b
            | none => match ex.enabled with
              | some b => b
              | none => true
          { e with id := some newId, enabled := some en }
            :: processDestinations fresh ensureUuid existing rest (k + 1)
      | none =>
          if e.truthyId then
            { e with id := some (ensureUuid (e.id.getD ""))
                   , enabled := some (e.enabled.getD true) }
              :: processDestinations fresh ensureUuid existing rest k
          else
            { e with id := some (fresh k), enabled := some (e.enabled.getD true) }
              :: processDestinations fresh ensureUuid existing rest (k + 1)

/-- A destination as a concrete transport leaves it after a successful
`configure`: freshly initialised and marked configured. -/
def dCfg : Destination := { Destination.init with is_configured := true }

/-- The state of `dCfg` after five consecutive transport failures: the
circuit breaker has tripped. -/
def dTripped : Destination := dCfg.publishIter 0 .returnedFalse 5

/-- A configured destination that requests the original image. -/
def dImgReq : Destination := { dCfg with include_image_data := true, id := "d1" }

/-- A configured destination that requests no image. -/
def dImgNot : Destination := { dCfg with id := "d2" }

/-- The state of `dCfg` after two consecutive transport failures. -/
def dTwoFail : Destination := dCfg.publishIter 0 .returnedFalse 2

/-- The state of `dTwoFail` after two successful publishes: two recorded
failures together with a success streak of two. -/
def dPreStreak : Destination := dTwoFail.publishIter 0 .ok 2

/-- An existing durable destination entry that is currently disabled. -/
def exDest : DestEntry :=
  { id := some "A", dtype := some "webhook", config := some "cfg", enabled := some false }

/-- An update entry with the same id, type and config as `exDest` but with
`enabled` set to true by the frontend. -/
def newDest : DestEntry :=
  { id := some "A", dtype := some "webhook", config := some "cfg", enabled := some true }

theorem breakerInv_recordFailure (d : Destination) (now : ℚ) (h : breakerInv d) :
    breakerInv (d.recordFailure now) := by
  unfold Destination.recordFailure
  dsimp only
  split
  · intro _; rfl
  · intro hf; exact h hf

theorem breakerInv_recordSuccess (d : Destination) (h : breakerInv d) :
    breakerInv d.recordSuccess := by
  unfold Destination.recordSuccess
  dsimp only
  split
  · intro hf; exact h hf
  · intro hf; exact h hf

theorem breakerInv_sendStage (d : Destination) (now : ℚ) (o : SendOutcome)
    (h : breakerInv d) : breakerInv (d.sendStage now o).2 := by
  cases o with
  | ok =>
      unfold Destination.sendStage
      dsimp only
      split
      · split
        · intro hf; exact breakerInv_recordSuccess d h hf
        · intro hf; exact breakerInv_recordSuccess d h hf
      · intro hf; exact breakerInv_recordSuccess d h hf
  | returnedFalse =>
      exact breakerInv_recordFailure _ now (fun hf => h hf)
  | raised =>
      exact breakerInv_recordFailure _ now (fun hf => h hf)

theorem breakerInv_publish (d : Destination) (now : ℚ) (o : SendOutcome)
    (h : breakerInv d) : breakerInv (d.publish now o).2 := by
  unfold Destination.publish
  split
  · exact h
  · split
    · exact breakerInv_recordFailure d now h
    · split
      · exact h
      · split
        · split
          · exact h
          · exact breakerInv_sendStage _ now o (fun hf => h hf)
        · exact breakerInv_sendStage _ now o (fun hf => h hf)

theorem breakerInv_disableById (ds : List Destination) (i : String)
    (h : ∀ d ∈ ds, breakerInv d) :
    ∀ d ∈ disablePublisherById ds i, breakerInv d := by
  induction ds with
  | nil => intro d hd; cases hd
  | cons x rest ih =>
      intro d hd
      unfold disablePublisherById at hd
      by_cases hx : x.id = i
      · rw [if_pos hx] at hd
        rcases List.mem_cons.mp hd with hxd | hrest
        · subst hxd; intro _; rfl
        · exact h d (List.mem_cons_of_mem x hrest)
      · rw [if_neg hx] at hd
        rcases List.mem_cons.mp hd with hxd | hrest
        · exact hxd ▸ h x (List.mem_cons_self x rest)
        · exact ih (fun y hy => h y (List.mem_cons_of_mem x hy)) d hrest

/-- Claim C1 (counterexample): a tripped destination, reached from the initial
state by five failed sends, satisfies the invariant; the pipeline-level
enable of all publishers re-enables it without clearing
`failure_threshold_reached`, so the invariant no longer holds. -/
theorem enable_publisher_breaks_breaker_invariant :
    dTripped.failure_threshold_reached = true ∧ dTripped.enabled = false ∧
    ¬ breakerInv ((enablePublisherAll [dTripped]).headD Destination.init) := by
  refine ⟨by decide, by decide, ?_⟩
  decide

/-- Claim C1 (amended): the invariant `failure_threshold_reached` implies not
`enabled` is preserved by recording failures and successes, by `publish`
with any transport outcome, by the manual failure reset, by the frame
reset, and by disabling a publisher by id or for all; the pipeline-level
enable operation does not preserve it (see the counterexample). -/
theorem breaker_invariant_preserved_except_enable :
    (∀ (d : Destination) (now : ℚ), breakerInv d → breakerInv (d.recordFailure now)) ∧
    (∀ d : Destination, breakerInv d → breakerInv d.recordSuccess) ∧
    (∀ (d : Destination) (now : ℚ) (o : SendOutcome),
        breakerInv d → breakerInv (d.publish now o).2) ∧
    (∀ d : Destination, breakerInv d.resetFailureCount) ∧
    (∀ d : Destination, breakerInv d → breakerInv d.resetFrameCount) ∧
    (∀ ds : List Destination, (∀ d ∈ ds, breakerInv d) →
        ∀ d ∈ disablePublisherAll ds, breakerInv d) ∧
    (∀ (ds : List Destination) (i : String), (∀ d ∈ ds, breakerInv d) →
        ∀ d ∈ disablePublisherById ds i, breakerInv d) := by
  refine ⟨breakerInv_recordFailure, breakerInv_recordSuccess, breakerInv_publish,
    ?_, ?_, ?_, breakerInv_disableById⟩
  · intro d
    unfold Destination.resetFailureCount
    dsimp only
    split
    · intro h; cases h
    · intro h; cases h
  · intro d h hf
    exact h hf
  · intro ds h d hd
    rcases List.mem_map.mp hd with ⟨x, _, rfl⟩
    intro _
    rfl

/-- Witness for the amended C1 at a concrete input. -/
theorem breaker_invariant_preserved_witness :
    breakerInv dCfg ∧ breakerInv ((dCfg.publish 0 .returnedFalse).2) :=
  ⟨by decide,
   breaker_invariant_preserved_except_enable.2.2.1 dCfg 0 .returnedFalse (by decide)⟩

/-- Claim C2: with `max_failures = 5` and no prior failures, five consecutive
failed sends leave the destination disabled with the breaker tripped; a
sixth publish attempt returns false and changes nothing (in particular
`failure_count` stays 5); the manual failure reset zeroes both counters,
clears the tripped flag and re-enables. -/
theorem breaker_five_failures_then_reset :
    dTripped.enabled = false ∧
    dTripped.failure_threshold_reached = true ∧
    dTripped.failure_count = 5 ∧
    dTripped.publish 0 .returnedFalse = (false, dTripped) ∧
    dTripped.resetFailureCount.failure_count = 0 ∧
    dTripped.resetFailureCount.success_count_since_failure = 0 ∧
    dTripped.resetFailureCount.failure_threshold_reached = false ∧
    dTripped.resetFailureCount.enabled = true := by
  decide

/-- Claim C10: an enabled but unconfigured destination fails every publish
attempt with a recorded failure, regardless of the frame-limit and
rate-limit state (the configured check precedes both gates); five such
attempts against the default configuration trip the breaker and disable
the destination. -/
theorem unconfigured_publish_records_failure_before_gates :
    (∀ (d : Destination) (now : ℚ) (o : SendOutcome),
        d.enabled = true → d.is_configured = false →
        d.publish now o = (false, d.recordFailure now)) ∧
    (Destination.init.publishIter 0 .ok 5).enabled = false ∧
    (Destination.init.publishIter 0 .ok 5).failure_threshold_reached = true ∧
    (Destination.init.publishIter 0 .ok 5).failure_count = 5 := by
  refine ⟨?_, by decide, by decide, by decide⟩
  intro d now o h1 h2
  unfold Destination.publish
  rw [h1, h2]
  simp

/-- Witness for C10 at a concrete input. -/
theorem unconfigured_publish_witness :
    Destination.init.enabled = true ∧ Destination.init.is_configured = false ∧
    Destination.init.publish 0 .ok = (false, Destination.init.recordFailure 0) :=
  ⟨by decide, by decide,
   unconfigured_publish_records_failure_before_gates.1 Destination.init 0 .ok
     (by decide) (by decide)⟩

theorem recordFailure_lpt (d : Destination) (now : ℚ) :
    (d.recordFailure now).last_publish_time = d.last_publish_time := by
  unfold Destination.recordFailure
  dsimp only
  split <;> rfl

theorem recordFailure_fc (d : Destination) (now : ℚ) :
    (d.recordFailure now).failure_count = d.failure_count + 1 := by
  unfold Destination.recordFailure
  dsimp only
  split <;> rfl

theorem recordFailure_rl (d : Destination) (now : ℚ) :
    (d.recordFailure now).rate_limit = d.rate_limit := by
  unfold Destination.recordFailure
  dsimp only
  split <;> rfl

theorem recordSuccess_lpt (d : Destination) :
    d.recordSuccess.last_publish_time = d.last_publish_time := by
  unfold Destination.recordSuccess
  dsimp only
  split <;> rfl

theorem sendStage_ok_lpt (d : Destination) (now : ℚ) :
    ((d.sendStage now .ok).2).last_publish_time = d.last_publish_time := by
  unfold Destination.sendStage
  dsimp only
  split
  · split
    · exact recordSuccess_lpt d
    · exact recordSuccess_lpt d
  · exact recordSuccess_lpt d

theorem sendStage_notOk (d : Destination) (now : ℚ) (o : SendOutcome)
    (ho : o ≠ SendOutcome.ok) :
    d.sendStage now o =
      (false, (Destination.recordFailure { d with last_publish_time := 0 } now)) := by
  cases o with
  | ok => exact absurd rfl ho
  | returnedFalse => rfl
  | raised => rfl

/-- Claim C5: with a rate limit `r` set on an enabled, configured,
unpaused destination, an attempt made less than `r` after the last
accepted send is refused with the whole state (in particular the
last-send timestamp) unchanged; an accepted attempt hands the transport
stage a state whose last-send timestamp has already been advanced to the
attempt time; and when the transport send returns false or raises, the
last-send timestamp is rolled back to 0 and a failure is recorded, so no
later attempt at time at least `r` is rate-limited against the failed
send. -/
theorem rate_limit_gate_behavior (d : Destination) (r now : ℚ)
    (hrl : d.rate_limit = some r) (hen : d.enabled = true)
    (hcf : d.is_configured = true) (hfl : d.frame_limit_reached = false) :
    (now - d.last_publish_time < r → ∀ o, d.publish now o = (false, d)) ∧
    (r ≤ now - d.last_publish_time → ∀ o,
        d.publish now o =
          Destination.sendStage { d with last_publish_time := now } now o) ∧
    (r ≤ now - d.last_publish_time →
        (d.publish now .ok).2.last_publish_time = now ∧
        ∀ o, o ≠ SendOutcome.ok →
          (d.publish now o).2.last_publish_time = 0 ∧
          (d.publish now o).2.failure_count = d.failure_count + 1 ∧
          (d.publish now o).2.rate_limit = some r ∧
          ∀ later : ℚ, r ≤ later →
            ¬ (later - (d.publish now o).2.last_publish_time < r)) := by
  have hgate : ∀ o, r ≤ now - d.last_publish_time →
      d.publish now o = Destination.sendStage { d with last_publish_time := now } now o := by
    intro o hge
    unfold Destination.publish
    rw [hen, hcf, hfl, hrl]
    simp [not_lt.mpr hge]
  refine ⟨?_, fun hge o => hgate o hge, fun hge => ⟨?_, ?_⟩⟩
  · intro hlt o
    unfold Destination.publish
    rw [hen, hcf, hfl, hrl]
    simp [hlt]
  · rw [hgate .ok hge, sendStage_ok_lpt]
  · intro o ho
    rw [hgate o hge, sendStage_notOk _ _ _ ho]
    refine ⟨recordFailure_lpt _ _, ?_, by rw [recordFailure_rl]; exact hrl, ?_⟩
    · rw [recordFailure_fc]
    · intro later hlater
      rw [recordFailure_lpt]
      simpa using not_lt.mpr hlater

/-- Witness for C5 at a concrete rate-limited destination. -/
theorem rate_limit_gate_witness :
    ({ dCfg with rate_limit := some 1 } : Destination).publish (1/2) .returnedFalse
        = (false, { dCfg with rate_limit := some 1 }) ∧
    (({ dCfg with rate_limit := some 1 } : Destination).publish 2
        .returnedFalse).2.last_publish_time = 0 :=
  ⟨(rate_limit_gate_behavior _ 1 (1/2) rfl rfl rfl rfl).1 (by norm_num [dCfg, Destination.init])
      .returnedFalse,
   (((rate_limit_gate_behavior _ 1 2 rfl rfl rfl rfl).2.2
      (by norm_num [dCfg, Destination.init])).2 .returnedFalse (by decide)).1⟩

/-- Claim C6 (counterexample): a destination with two recorded failures
and a success streak of two (reached by two failed and then two
successful publishes) still has a streak of two after three further
consecutive successful publishes: the streak resets when it reaches
three mid-sequence and then keeps counting, so the claim that the streak
ends at zero after any three consecutive successes fails. -/
theorem success_streak_not_reset_from_nonzero_streak :
    dPreStreak.failure_count = 2 ∧
    dPreStreak.success_count_since_failure = 2 ∧
    (dPreStreak.publishIter 0 .ok 3).failure_count = 0 ∧
    (dPreStreak.publishIter 0 .ok 3).success_count_since_failure = 2 := by
  decide

/-- Claim C6 (amended): success recording never changes `enabled` or the
tripped flag, so recovery never re-enables a tripped breaker; and a
destination with positive `failure_count` whose success streak is zero
(as it is right after any recorded failure) has both `failure_count` and
the streak at zero after three consecutive successful publishes, with no
explicit reset call. -/
theorem failure_count_recovery_after_three_successes :
    (∀ d : Destination, d.recordSuccess.enabled = d.enabled ∧
        d.recordSuccess.failure_threshold_reached = d.failure_threshold_reached) ∧
    (∀ (d : Destination) (t1 t2 t3 : ℚ),
        0 < d.failure_count → d.success_count_since_failure = 0 →
        d.enabled = true → d.is_configured = true →
        d.frame_limit_reached = false → d.rate_limit = none →
        d.max_frames = none →
        (((d.publish t1 .ok).2.publish t2 .ok).2.publish t3 .ok).2.failure_count = 0 ∧
        (((d.publish t1 .ok).2.publish t2 .ok).2.publish t3 .ok).2.success_count_since_failure
          = 0) := by
  constructor
  · intro d
    unfold Destination.recordSuccess
    dsimp only
    constructor <;> (split <;> rfl)
  · intro d t1 t2 t3 hfc hscf hen hcf hfl hrl hmf
    obtain ⟨rl, lpt, cfgd, idv, en, iid, iri, mf, fcn, flr, pwl, fc, mxf, ftr, lft, scf⟩ := d
    simp only at hfc hscf hen hcf hfl hrl hmf
    subst hscf hen hcf hfl hrl hmf
    simp [Destination.publish, Destination.sendStage, Destination.recordSuccess, hfc]

/-- Witness for the amended C6 at a concrete destination with two
failures and a fresh streak. -/
theorem failure_count_recovery_witness :
    (((dTwoFail.publish 0 .ok).2.publish 0 .ok).2.publish 0 .ok).2.failure_count = 0 ∧
    (((dTwoFail.publish 0 .ok).2.publish 0 .ok).2.publish
        0 .ok).2.success_count_since_failure = 0 :=
  failure_count_recovery_after_three_successes.2 dTwoFail 0 0 0 (by decide) (by decide)
    (by decide) (by decide) (by decide) (by decide) (by decide)

theorem anyNeedImage_iff (ds : List Destination) :
    anyNeedImage ds = true ↔ ∃ d ∈ ds, d.enabled = true ∧ d.include_image_data = true := by
  simp [anyNeedImage, List.any_eq_true, Bool.and_eq_true]

theorem anyNeedResultImage_iff (ds : List Destination) :
    anyNeedResultImage ds = true ↔
      ∃ d ∈ ds, d.enabled = true ∧ d.include_result_image = true := by
  simp [anyNeedResultImage, List.any_eq_true, Bool.and_eq_true]

/-- Claim C3 (counterexample): the structured payload the run loop builds
keys the pipeline id as `node_id`; it has no `pipeline_id` key. -/
theorem payload_key_is_node_id_not_pipeline_id :
    ((runPublishArgs "p1" "r1" 5 6 []).1).lookup "pipeline_id" = none ∧
    ((runPublishArgs "p1" "r1" 5 6 []).1).lookup "node_id" = some "p1" := by
  decide

/-- Claim C3 (amended): whenever inference produced a result, the payload
passed to the publisher is exactly the pipeline id under the key
`node_id` together with the JSON-converted results, and the raw frame
respectively the annotated frame is passed exactly when some enabled
destination requests that image kind. -/
theorem run_publish_payload_and_frames (pipelineId jsonResults : String)
    (frame latestFrame : ℕ) (ds : List Destination) :
    (runPublishArgs pipelineId jsonResults frame latestFrame ds).1
      = [("node_id", pipelineId), ("results", jsonResults)] ∧
    ((runPublishArgs pipelineId jsonResults frame latestFrame ds).2.1 = some frame ↔
      ∃ d ∈ ds, d.enabled = true ∧ d.include_image_data = true) ∧
    ((runPublishArgs pipelineId jsonResults frame latestFrame ds).2.2 = some latestFrame ↔
      ∃ d ∈ ds, d.enabled = true ∧ d.include_result_image = true) := by
  refine ⟨rfl, ?_, ?_⟩
  · by_cases h : anyNeedImage ds
    · simp [runPublishArgs, h, ← anyNeedImage_iff]
    · have h' : ¬ ∃ d ∈ ds, d.enabled = true ∧ d.include_image_data = true := by
        rw [← anyNeedImage_iff]; simpa using h
      simp [runPublishArgs, h, h']
  · by_cases h : anyNeedResultImage ds
    · simp [runPublishArgs, h, ← anyNeedResultImage_iff]
    · have h' : ¬ ∃ d ∈ ds, d.enabled = true ∧ d.include_result_image = true := by
        rw [← anyNeedResultImage_iff]; simpa using h
      simp [runPublishArgs, h, h']

/-- Claim C4 (failing input): two enabled destinations where only the
first requests the original image; the fan-out loop reuses the one
shared payload dict, so the second destination's task is submitted with
the encoded image attached although it did not request it. -/
theorem publish_attaches_image_to_nonrequesting_destination :
    dImgNot.include_image_data = false ∧
    (publisherPublish [dImgReq, dImgNot] (some 3) none).1
      = [(dImgReq, ⟨true, false⟩), (dImgNot, ⟨true, false⟩)] := by
  constructor
  · decide
  · decide

/-- Claim C7: `start` on an uninitialized pipeline reports the error with
the state unchanged; a fault carrying a non-empty message inside the run
loop ends with the pipeline not running, the message recorded as the
error state, inference disabled and initialization intact, and a
subsequent `start` on the faulted state is accepted. -/
theorem start_unconfigured_and_run_fault_state :
    (∀ (p : PipelineState) (now : ℚ), p.is_initialized = false →
        p.start now = (some "cannot start - not initialized. Call configure() first.", p)) ∧
    (∀ (p : PipelineState) (msg : String), msg ≠ "" →
        (p.runWithFault msg).is_running = false ∧
        (p.runWithFault msg).error_state = some msg ∧
        (p.runWithFault msg).inference_enabled = false ∧
        (p.runWithFault msg).is_initialized = p.is_initialized ∧
        (p.is_initialized = true → ∀ now : ℚ, ((p.runWithFault msg).start now).1 = none)) := by
  constructor
  · intro p now h
    unfold PipelineState.start
    rw [h]
    simp
  · intro p msg hm
    refine ⟨rfl, rfl, rfl, rfl, ?_⟩
    intro hi now
    simp [PipelineState.start, PipelineState.runWithFault, hi]

/-- Witness for C7 at the freshly constructed pipeline state and at a
concrete fault. -/
theorem start_unconfigured_witness :
    PipelineState.mkInit.start 0
      = (some "cannot start - not initialized. Call configure() first.",
         PipelineState.mkInit) ∧
    (({ PipelineState.mkInit with is_initialized := true } : PipelineState).runWithFault
        "boom").error_state = some "boom" :=
  ⟨start_unconfigured_and_run_fault_state.1 PipelineState.mkInit 0 rfl,
   (start_unconfigured_and_run_fault_state.2 _ "boom" (by decide)).2.1⟩

theorem getLastD_cons_cons (a b : ℚ) (u : List ℚ) (d : ℚ) :
    (a :: b :: u).getLastD d = (b :: u).getLastD d := by
  simp [List.getLastD_cons]

theorem getLastD_mem_cons (a : ℚ) (t : List ℚ) : (a :: t).getLastD 0 ∈ a :: t := by
  induction t generalizing a with
  | nil => simp [List.getLastD]
  | cons b u ih =>
      rw [getLastD_cons_cons]
      exact List.mem_cons_of_mem a (ih b)

theorem sorted_le_getLastD (l : List ℚ) (hl : l.Sorted (· ≤ ·)) :
    ∀ x ∈ l, x ≤ l.getLastD 0 := by
  induction l with
  | nil => intro x hx; cases hx
  | cons a t ih =>
      intro x hx
      have hat := List.sorted_cons.mp hl
      rcases List.mem_cons.mp hx with rfl | hxt
      · cases t with
        | nil => simp [List.getLastD]
        | cons b u =>
            rw [getLastD_cons_cons]
            exact hat.1 _ (getLastD_mem_cons b u)
      · cases t with
        | nil => cases hxt
        | cons b u =>
            rw [getLastD_cons_cons]
            exact ih hat.2 x hxt

theorem sorted_headD_le (l : List ℚ) (hl : l.Sorted (· ≤ ·)) :
    ∀ x ∈ l, l.headD 0 ≤ x := by
  cases l with
  | nil => intro x hx; cases hx
  | cons a t =>
      intro x hx
      have hat := List.sorted_cons.mp hl
      rcases List.mem_cons.mp hx with rfl | hxt
      · exact le_refl x
      · exact hat.1 x hxt

theorem headD_mem_cons (a : ℚ) (t : List ℚ) : (a :: t).headD 0 ∈ a :: t := by
  simp

/-- Claim C9 (counterexample): with the two in-window timestamps 0 and
0.3 the code reports the rounded value 3.3, not the exact quotient
(2 - 1) / (0.3 - 0) = 10/3 the claim states. -/
theorem rolling_fps_rounded_counterexample :
    (calculateRollingFps [0, 3/10] 1).1 = 33/10 ∧
    (33 : ℚ)/10 ≠ (((2 : ℚ) - 1) / ((3:ℚ)/10 - 0)) := by
  constructor
  · norm_num [calculateRollingFps, fpsWindowSeconds, List.filter, List.getLastD, round1,
      round_eq, Int.floor_eq_iff]
  · norm_num

/-- Claim C9 (amended): for sorted timestamps, the computation keeps
exactly the timestamps not older than now minus the 10-second window,
reports 0 for fewer than two survivors, and otherwise reports
(count - 1) / (newest - oldest) rounded to one decimal, where newest and
oldest are the maximum and minimum surviving timestamps; the eleven
timestamps 0.0, 0.1, ..., 1.0 inside the window yield exactly 10. -/
theorem rolling_fps_window_spec :
    (∀ (ts : List ℚ) (now : ℚ), ts.Sorted (· ≤ ·) →
        ((calculateRollingFps ts now).2 = ts.filter fun t => now - 10 ≤ t) ∧
        (∀ t : ℚ, t ∈ (calculateRollingFps ts now).2 ↔ t ∈ ts ∧ now - 10 ≤ t) ∧
        ((ts.filter fun t => now - 10 ≤ t).length < 2 →
          (calculateRollingFps ts now).1 = 0) ∧
        (∀ M m : ℚ, M ∈ (ts.filter fun t => now - 10 ≤ t) →
            m ∈ (ts.filter fun t => now - 10 ≤ t) →
            (∀ x ∈ (ts.filter fun t => now - 10 ≤ t), x ≤ M) →
            (∀ x ∈ (ts.filter fun t => now - 10 ≤ t), m ≤ x) →
            2 ≤ (ts.filter fun t => now - 10 ≤ t).length →
            (calculateRollingFps ts now).1
              = round1 ((((ts.filter fun t => now - 10 ≤ t).length : ℚ) - 1) / (M - m)))) ∧
    (calculateRollingFps [0, 1/10, 1/5, 3/10, 2/5, 1/2, 3/5, 7/10, 4/5, 9/10, 1] 1).1
      = 10 := by
  constructor
  · intro ts now hs
    have hsnd : (calculateRollingFps ts now).2 = ts.filter fun t => now - 10 ≤ t := by
      simp only [calculateRollingFps, fpsWindowSeconds]
      split
      · rfl
      · split <;> rfl
    refine ⟨hsnd, ?_, ?_, ?_⟩
    · intro t
      rw [hsnd]
      simp [List.mem_filter]
    · intro h
      simp only [calculateRollingFps, fpsWindowSeconds]
      rw [if_pos h]
    · intro M m hM hm hMax hMin hlen
      have hks : (ts.filter fun t => now - 10 ≤ t).Sorted (· ≤ ·) := hs.filter _
      have h2 : ¬ ((ts.filter fun t => now - 10 ≤ t).length < 2) := not_lt.mpr hlen
      have hgl : (ts.filter fun t => now - 10 ≤ t).getLastD 0 = M := by
        refine le_antisymm ?_ (sorted_le_getLastD _ hks M hM)
        cases hk : (ts.filter fun t => now - 10 ≤ t) with
        | nil => rw [hk] at hlen; simp at hlen
        | cons a t' =>
            refine hMax _ ?_
            rw [hk]
            exact getLastD_mem_cons a t'
      have hhd : (ts.filter fun t => now - 10 ≤ t).headD 0 = m := by
        refine le_antisymm (sorted_headD_le _ hks m hm) ?_
        cases hk : (ts.filter fun t => now - 10 ≤ t) with
        | nil => rw [hk] at hlen; simp at hlen
        | cons a t' =>
            refine hMin _ ?_
            rw [hk]
            exact headD_mem_cons a t'
      simp only [calculateRollingFps, fpsWindowSeconds]
      rw [if_neg h2, hgl, hhd]
      split_ifs with hspan
      · rfl
      · have hMm : M - m = 0 := le_antisymm (not_lt.mp hspan) (sub_nonneg.mpr (hMin M hM))
        rw [hMm, div_zero]
        simp [round1]
  · norm_num [calculateRollingFps, fpsWindowSeconds, List.filter, List.getLastD,
      List.getLastD_cons, round1, round_eq, Int.floor_eq_iff]

/-- Witness for the amended C9: a single in-window sample yields fps 0. -/
theorem rolling_fps_window_spec_witness :
    (calculateRollingFps [(5 : ℚ)] 20).1 = 0 := by
  have h := rolling_fps_window_spec.1 [(5 : ℚ)] 20 (by simp)
  exact h.2.2.1 (by norm_num [List.filter])

/-- Claim C8 (counterexample): updating against an existing disabled
destination with an entry of identical id, type and config but
`enabled := true` produces `enabled := true`: the frontend value wins, so
the existing enabled state is not preserved. -/
theorem update_destinations_enabled_not_preserved :
    exDest.enabled = some false ∧
    processDestinations (fun n => toString n) (fun s => s) [exDest] [newDest] 0
      = [{ id := some "A", dtype := some "webhook", config := some "cfg",
           enabled := some true }] := by
  constructor
  · rfl
  · rfl

/-- Claim C8 (amended): an update entry matched to an existing destination
(by id, else by type and config) keeps the existing destination's id and
takes its enabled state from the entry when the entry specifies one,
falling back to the existing destination's enabled state (default true)
otherwise; an unmatched entry without a truthy id is minted a fresh id,
an unmatched entry with one gets it normalised by
`_ensure_destination_uuid`, and both default to enabled when the entry
does not specify. -/
theorem update_destinations_identity_preservation :
    (∀ (fresh : ℕ → String) (ensureUuid : String → String)
        (existing rest : List DestEntry) (e ex : DestEntry) (k : ℕ) (s : String),
        findMatch existing e = some ex → ex.id = some s →
        processDestinations fresh ensureUuid existing (e :: rest) k
          = { e with id := some s,
                     enabled := some (e.enabled.getD (ex.enabled.getD true)) }
            :: processDestinations fresh ensureUuid existing rest (k + 1)) ∧
    (∀ (fresh : ℕ → String) (ensureUuid : String → String)
        (existing rest : List DestEntry) (e : DestEntry) (k : ℕ),
        findMatch existing e = none → e.truthyId = false →
        processDestinations fresh ensureUuid existing (e :: rest) k
          = { e with id := some (fresh k), enabled := some (e.enabled.getD true) }
            :: processDestinations fresh ensureUuid existing rest (k + 1)) ∧
    (∀ (fresh : ℕ → String) (ensureUuid : String → String)
        (existing rest : List DestEntry) (e : DestEntry) (k : ℕ),
        findMatch existing e = none → e.truthyId = true →
        processDestinations fresh ensureUuid existing (e :: rest) k
          = { e with id := some (ensureUuid (e.id.getD ""))
                   , enabled := some (e.enabled.getD true) }
            :: processDestinations fresh ensureUuid existing rest k) := by
  refine ⟨?_, ?_, ?_⟩
  · intro fresh ensureUuid existing rest e ex k s hfm hexid
    simp only [processDestinations]
    rw [hfm]
    dsimp only
    rw [hexid]
    cases he : e.enabled <;> cases hx : ex.enabled <;> simp [he, hx]
  · intro fresh ensureUuid existing rest e k hfm htr
    simp only [processDestinations]
    rw [hfm]
    dsimp only
    rw [htr]
    cases he : e.enabled <;> simp [he]
  · intro fresh ensureUuid existing rest e k hfm htr
    simp only [processDestinations]
    rw [hfm]
    dsimp only
    rw [htr]
    cases he : e.enabled <;> simp [he]

/-- Witness for the amended C8: an entry matching `exDest` that leaves
`enabled` unspecified keeps both the existing id and the existing
disabled state. -/
theorem update_destinations_witness :
    processDestinations (fun _ => "u") (fun s => s) [exDest]
        [{ newDest with enabled := none }] 0
      = [{ newDest with enabled := some false }] := by
  have h := update_destinations_identity_preservation.1 (fun _ => "u") (fun s => s)
      [exDest] [] { newDest with enabled := none } exDest 0 "A" (by decide) rfl
  simpa [processDestinations] using h
